import Mathlib

/-!
Verification of the type-declaration repository for the Switch scripting API.

The repository consists of two ambient TypeScript declaration files:
`src/index.d.ts` and `src/unnamed/part_000`.  They declare enumerations with
string or number literal members and host-provided classes whose behaviour is
documented in doc comments.  This file embeds the enumeration declarations
verbatim as association lists from member name to literal value (one namespace
per source file), and models the documented behavioural contracts (job
lifecycle, property access, content upload at routing, global-data locking,
traffic-light routing, private data access) as executable Lean definitions.
-/

namespace SwitchScripting

/-! Enumeration declarations of `src/index.d.ts`, transcribed member by
member in declaration order as pairs of member name and literal value. -/

namespace IndexDts

/-- The `declare enum PropertyType` block of src/index.d.ts, lines 1-14. -/
def PropertyType : List (String × String) :=
  [("Literal", "literal"), ("Number", "number"), ("Date", "date"),
   ("HoursAndMinutes", "hoursandminutes"), ("Boolean", "boolean"),
   ("String", "string"), ("FilePath", "filepath"), ("FolderPath", "folderpath"),
   ("FileType", "filetype"), ("FolderPattern", "folderpattern"),
   ("Regex", "regex"), ("OAuthToken", "oauthtoken")]

/-- The `declare enum LogLevel` block of src/index.d.ts, lines 16-20. -/
def LogLevel : List (String × String) :=
  [("Info", "info"), ("Warning", "warning"), ("Error", "error")]

/-- The `declare enum DatasetModel` block of src/index.d.ts, lines 22-27. -/
def DatasetModel : List (String × String) :=
  [("Opaque", "Opaque"), ("XML", "XML"), ("XMP", "XMP"), ("JDF", "JDF")]

/-- The `declare enum AccessLevel` block of src/index.d.ts, lines 29-32. -/
def AccessLevel : List (String × String) :=
  [("ReadOnly", "readOnly"), ("ReadWrite", "readWrite")]

/-- The `declare enum Scope` block of src/index.d.ts, lines 34-38. -/
def Scope : List (String × String) :=
  [("FlowElement", "flowElement"), ("Element", "element"), ("Global", "global")]

/-- The `enum Level` block inside `declare namespace Connection` of
src/index.d.ts, lines 108-112. -/
def ConnectionLevel : List (String × String) :=
  [("Success", "success"), ("Warning", "warning"), ("Error", "error")]

end IndexDts

/-! Enumeration declarations of `src/unnamed/part_000`, transcribed member by
member in declaration order. -/

namespace Part000

/-- The `declare enum PropertyType` block of src/unnamed/part_000, lines 3-16. -/
def PropertyType : List (String × String) :=
  [("Literal", "literal"), ("Number", "number"), ("Date", "date"),
   ("HoursAndMinutes", "hoursandminutes"), ("Boolean", "boolean"),
   ("String", "string"), ("FilePath", "filepath"), ("FolderPath", "folderpath"),
   ("FileType", "filetype"), ("FolderPattern", "folderpattern"),
   ("Regex", "regex"), ("OAuthToken", "oauthtoken")]

/-- The `declare enum LogLevel` block of src/unnamed/part_000, lines 17-22. -/
def LogLevel : List (String × String) :=
  [("Info", "info"), ("Warning", "warning"), ("Error", "error"),
   ("Debug", "debug")]

/-- The `declare enum DatasetModel` block of src/unnamed/part_000, lines 23-29. -/
def DatasetModel : List (String × String) :=
  [("Opaque", "Opaque"), ("XML", "XML"), ("XMP", "XMP"), ("JDF", "JDF"),
   ("JSON", "JSON")]

/-- The `declare enum AccessLevel` block of src/unnamed/part_000, lines 30-35. -/
def AccessLevel : List (String × String) :=
  [("ReadOnly", "readOnly"), ("ReadWrite", "readWrite")]

/-- The `declare enum Priority` block of src/unnamed/part_000, lines 36-42
(number literals). -/
def Priority : List (String × Int) :=
  [("Low", -100000), ("BelowNormal", -10000), ("Normal", 0),
   ("AboveNormal", 10000), ("High", 100000)]

/-- The `declare enum Scope` block of src/unnamed/part_000, lines 43-49. -/
def Scope : List (String × String) :=
  [("Element", "element"), ("Flow", "flow"), ("FlowElement", "flowElement"),
   ("FlowElements", "flowElements"), ("Global", "global")]

/-- The `enum Level` block inside `declare namespace Connection` of
src/unnamed/part_000, lines 126-130. -/
def ConnectionLevel : List (String × String) :=
  [("Success", "success"), ("Warning", "warning"), ("Error", "error")]

end Part000

/-- C4: the enum literal values are exactly the host-dictated ones; in
particular `AccessLevel.ReadOnly` is the string readOnly and
`AccessLevel.ReadWrite` is readWrite in both source files that declare
`AccessLevel`, and `Priority.Normal` is the number 0 in src/unnamed/part_000,
the one source file that declares `Priority`. -/
theorem C4_enum_literal_values :
    List.lookup "ReadOnly" IndexDts.AccessLevel = some "readOnly" ∧
    List.lookup "ReadWrite" IndexDts.AccessLevel = some "readWrite" ∧
    List.lookup "ReadOnly" Part000.AccessLevel = some "readOnly" ∧
    List.lookup "ReadWrite" Part000.AccessLevel = some "readWrite" ∧
    List.lookup "Normal" Part000.Priority = some 0 := by
  decide

/-- C5 counterexample: the claim says the `DatasetModel` members are exactly
Opaque, XML, XMP and JDF in every source file that declares it, but
src/unnamed/part_000 also declares a member `JSON = "JSON"`, whose name is
none of the four. -/
theorem C5_counterexample :
    ("JSON", "JSON") ∈ Part000.DatasetModel ∧
    "JSON" ∉ (["Opaque", "XML", "XMP", "JDF"] : List String) := by
  decide

/-- C5 amended: src/index.d.ts declares `DatasetModel` with members exactly
Opaque, XML, XMP and JDF (each valued by its own name), while
src/unnamed/part_000 declares those four plus an additional member
`JSON = "JSON"`. -/
theorem C5_dataset_model_members :
    IndexDts.DatasetModel.map Prod.fst = ["Opaque", "XML", "XMP", "JDF"] ∧
    Part000.DatasetModel.map Prod.fst = ["Opaque", "XML", "XMP", "JDF", "JSON"] ∧
    IndexDts.DatasetModel ⊆ Part000.DatasetModel := by
  refine ⟨rfl, rfl, ?_⟩
  decide

/-- C6 counterexample: the claim says the `Scope` enumeration provides values
for exactly the element, flow and global scopes in every source file that
declares it, but src/index.d.ts declares no member with value flow, and it
declares a member with value flowElement, which is none of the three. -/
theorem C6_counterexample :
    "flow" ∉ IndexDts.Scope.map Prod.snd ∧
    "flowElement" ∈ IndexDts.Scope.map Prod.snd ∧
    "flowElement" ∉ (["element", "flow", "global"] : List String) := by
  decide

/-- C6 amended: src/index.d.ts declares `Scope` with values flowElement,
element and global (element and global scopes, plus flowElement, and no flow
value), while src/unnamed/part_000 declares values element, flow, flowElement,
flowElements and global; only the part_000 file provides the flow scope. -/
theorem C6_scope_members :
    IndexDts.Scope.map Prod.snd = ["flowElement", "element", "global"] ∧
    Part000.Scope.map Prod.snd =
      ["element", "flow", "flowElement", "flowElements", "global"] ∧
    IndexDts.Scope ⊆ Part000.Scope := by
  refine ⟨rfl, rfl, ?_⟩
  decide

/-- C8 counterexample: the claim says the two declaration files declare the
identical set of members with identical literal values for every enum they
both declare, but `LogLevel` in src/unnamed/part_000 has a member
`Debug = "debug"` that src/index.d.ts does not declare. -/
theorem C8_counterexample :
    ("Debug", "debug") ∈ Part000.LogLevel ∧
    ("Debug", "debug") ∉ IndexDts.LogLevel := by
  decide

/-- C8 amended: of the enums declared in both files, `PropertyType`,
`AccessLevel` and `Connection.Level` are declared identically; for `LogLevel`,
`DatasetModel` and `Scope` every member declared in src/index.d.ts appears
with the same literal value in src/unnamed/part_000, but part_000 declares
strictly more members (Debug, JSON, Flow and FlowElements respectively). -/
theorem C8_enum_agreement :
    IndexDts.PropertyType = Part000.PropertyType ∧
    IndexDts.AccessLevel = Part000.AccessLevel ∧
    IndexDts.ConnectionLevel = Part000.ConnectionLevel ∧
    IndexDts.LogLevel ⊆ Part000.LogLevel ∧
    IndexDts.DatasetModel ⊆ Part000.DatasetModel ∧
    IndexDts.Scope ⊆ Part000.Scope ∧
    ("Debug", "debug") ∈ Part000.LogLevel ∧
      ("Debug", "debug") ∉ IndexDts.LogLevel ∧
    ("JSON", "JSON") ∈ Part000.DatasetModel ∧
      ("JSON", "JSON") ∉ IndexDts.DatasetModel ∧
    ("Flow", "flow") ∈ Part000.Scope ∧ ("Flow", "flow") ∉ IndexDts.Scope ∧
    ("FlowElements", "flowElements") ∈ Part000.Scope ∧
      ("FlowElements", "flowElements") ∉ IndexDts.Scope := by
  refine ⟨rfl, rfl, rfl, by decide, by decide, by decide, ?_⟩
  decide

/-! Behavioural model of the documented host contract.  Every definition
below is transcribed from the doc comments of the two declaration files,
which document the behaviour the host implements for each declared method. -/

namespace Host

/-- Modelled from the documented lifecycle of the `Job` class
(src/index.d.ts lines 232-257, src/unnamed/part_000 lines 320-345): the state
of one job, namely whether it is still in the input folder and whether the
`jobArrived` entry point has already been invoked for it since the last flow
restart. -/
structure JobState where
  inInput : Bool
  arrived : Bool
deriving DecidableEq, Repr, Fintype

/-- Events of the documented job lifecycle: the `jobArrived` entry point is
invoked for the job, one of the `sendTo` methods resolves for it, `fail` is
called for it, or the flow restarts. -/
inductive JobEvent
  | jobArrived
  | sendToResolved
  | failCalled
  | flowRestart
deriving DecidableEq, Repr, Fintype

/-- Modelled from the documented lifecycle of the `Job` class
(src/index.d.ts lines 251-256, src/unnamed/part_000 lines 339-344): a job
remains in the input folder until a `sendTo` or `fail` method has been called
for it, at which point it is consumed; `jobArrived` is invoked only once per
job, and once again for all jobs in the input folder after a flow restart.
`none` means the host never produces the event in that state. -/
def jobStep (s : JobState) : JobEvent → Option JobState
  | .jobArrived =>
      if s.inInput && !s.arrived then some { s with arrived := true } else none
  | .sendToResolved =>
      if s.inInput then some { s with inInput := false } else none
  | .failCalled =>
      if s.inInput then some { s with inInput := false } else none
  | .flowRestart => some { s with arrived := false }

end Host

/-- C1: a job is consumed (leaves the input folder) exactly when a sendTo
method or fail resolves for it, and by nothing else; `jobArrived` fires only
for a job for which it has not fired since the last restart, and a flow
restart keeps the job in the input folder while making it eligible for
`jobArrived` again. -/
theorem C1_job_lifecycle :
    (∀ s s' : Host.JobState,
        Host.jobStep s .sendToResolved = some s' → s'.inInput = false) ∧
    (∀ s s' : Host.JobState,
        Host.jobStep s .failCalled = some s' → s'.inInput = false) ∧
    (∀ (s : Host.JobState) (e : Host.JobEvent) (s' : Host.JobState),
        Host.jobStep s e = some s' → s.inInput = true → s'.inInput = false →
        e = .sendToResolved ∨ e = .failCalled) ∧
    (∀ s s' : Host.JobState,
        Host.jobStep s .jobArrived = some s' →
        s.arrived = false ∧ s'.arrived = true ∧ s'.inInput = s.inInput) ∧
    (∀ s s' : Host.JobState,
        Host.jobStep s .flowRestart = some s' →
        s'.inInput = s.inInput ∧ s'.arrived = false) := by
  decide

/-- C1 witness: from the state where the job is in the input folder and has
arrived, the resolution of a sendTo method consumes it. -/
theorem C1_witness :
    Host.jobStep ⟨true, true⟩ .sendToResolved = some ⟨false, true⟩ ∧
    (⟨false, true⟩ : Host.JobState).inInput = false :=
  ⟨by decide, C1_job_lifecycle.1 ⟨true, true⟩ ⟨false, true⟩ (by decide)⟩

namespace Host

/-- The `declare enum PropertyType` members shared by both files
(src/index.d.ts lines 1-14, src/unnamed/part_000 lines 3-16), as an inductive
type for the behavioural model. -/
inductive PropertyType
  | Literal | Number | Date | HoursAndMinutes | Boolean | String
  | FilePath | FolderPath | FileType | FolderPattern | Regex | OAuthToken
deriving DecidableEq, Repr

/-- Modelled from the documented contract of the custom script properties
(src/index.d.ts lines 121-156, src/unnamed/part_000 lines 164-196): a property
defined in the script declaration has a value type, a string value, and a
visibility flag, which is false exactly for a dependent property that is not
visible for the current value of its parent property. -/
structure PropertyDecl where
  type : PropertyType
  visible : Bool
  value : String
deriving DecidableEq, Repr

/-- Modelled from the `FlowElement` class (src/index.d.ts lines 115-230,
src/unnamed/part_000 lines 148-319): the part of the flow element state the
property getters consult, namely the properties of the script declaration
keyed by tag. -/
structure FlowElement where
  props : List (String × PropertyDecl)
deriving DecidableEq, Repr

/-- The property of the script declaration with the given tag, if defined. -/
def findProp (fe : FlowElement) (tag : String) : Option PropertyDecl :=
  (fe.props.find? (fun p => p.1 == tag)).map Prod.snd

/-- Modelled from `FlowElement.hasProperty` (src/index.d.ts lines 151-156,
src/unnamed/part_000 lines 191-196): true if a property with the specified tag
is available for the flow element, that is defined in the script declaration
and visible for the current value of its parent property. -/
def hasProperty (fe : FlowElement) (tag : String) : Bool :=
  match findProp fe tag with
  | some p => p.visible
  | none => false

/-- Modelled from `FlowElement.getPropertyStringValue` (src/index.d.ts lines
121-132, src/unnamed/part_000 lines 164-175): resolves with the property value
as string, and throws an invalid-tag error if the property with the given tag
is not defined in the script declaration or is a dependent property not
visible for the current value of the parent property. -/
def getPropertyStringValue (fe : FlowElement) (tag : String) :
    Except String String :=
  match findProp fe tag with
  | some p =>
      if p.visible then .ok p.value else .error ("Invalid tag: " ++ tag)
  | none => .error ("Invalid tag: " ++ tag)

/-- Modelled from `FlowElement.getPropertyType` (src/index.d.ts lines 134-141,
src/unnamed/part_000 lines 176-183): returns the property value type, and
throws an invalid-tag error in the same two cases as
`getPropertyStringValue`. -/
def getPropertyType (fe : FlowElement) (tag : String) :
    Except String PropertyType :=
  match findProp fe tag with
  | some p =>
      if p.visible then .ok p.type else .error ("Invalid tag: " ++ tag)
  | none => .error ("Invalid tag: " ++ tag)

end Host

/-- C2: the property getters of `FlowElement` raise the invalid-tag error
exactly for a tag that is not defined in the script declaration or names a
dependent property not visible for the current value of its parent property;
equivalently, they error exactly when `hasProperty` is false, and otherwise
return a value. -/
theorem C2_invalid_tag_errors :
    ∀ (fe : Host.FlowElement) (tag : String),
      (Host.hasProperty fe tag = false ↔
        Host.getPropertyStringValue fe tag = .error ("Invalid tag: " ++ tag)) ∧
      (Host.hasProperty fe tag = false ↔
        Host.getPropertyType fe tag = .error ("Invalid tag: " ++ tag)) ∧
      ((Host.findProp fe tag = none ∨
          ∃ p, Host.findProp fe tag = some p ∧ p.visible = false) ↔
        Host.hasProperty fe tag = false) ∧
      (Host.hasProperty fe tag = true →
        ∃ p, Host.findProp fe tag = some p ∧
          Host.getPropertyStringValue fe tag = .ok p.value ∧
          Host.getPropertyType fe tag = .ok p.type) := by
  intro fe tag
  rcases h : Host.findProp fe tag with _ | p
  · simp [Host.hasProperty, Host.getPropertyStringValue, Host.getPropertyType, h]
  · rcases p with ⟨ty, vis, va⟩
    cases vis <;>
      simp [Host.hasProperty, Host.getPropertyStringValue,
        Host.getPropertyType, h]

/-- C2 witness: on a flow element declaring only the visible property `a`,
`hasProperty` is false for the tag `b` and the getters raise the invalid-tag
error there. -/
theorem C2_witness :
    Host.hasProperty ⟨[("a", ⟨.String, true, "v"⟩)]⟩ "b" = false ∧
    Host.getPropertyStringValue ⟨[("a", ⟨.String, true, "v"⟩)]⟩ "b" =
      .error ("Invalid tag: " ++ "b") :=
  ⟨by decide,
   (C2_invalid_tag_errors ⟨[("a", ⟨.String, true, "v"⟩)]⟩ "b").1.mp (by decide)⟩

namespace Host

/-- The `declare enum AccessLevel` members shared by both files
(src/index.d.ts lines 29-32, src/unnamed/part_000 lines 30-35), as an
inductive type for the behavioural model. -/
inductive AccessLevel
  | ReadOnly
  | ReadWrite
deriving DecidableEq, Repr

/-- Modelled from the documented contract of `Job.get` and `Job.getDataset`
(src/index.d.ts lines 493-535 and 598-624, src/unnamed/part_000 lines 606-648
and 710-736): a content access session records the access level the path was
obtained with, the content at the time of the call, and the content found on
disk at the routing stage.  Modification is detected by comparing the two. -/
structure ContentSession where
  level : AccessLevel
  original : String
  current : String
deriving DecidableEq, Repr

/-- Modelled from `Job.get` (src/index.d.ts lines 493-535, src/unnamed/part_000
lines 606-648): returns the path to the job content with the requested access
level; at that moment the content on disk is the job content. -/
def jobGet (accessLevel : AccessLevel) (content : String) : ContentSession :=
  { level := accessLevel, original := content, current := content }

/-- Modelled from `Job.getDataset` (src/index.d.ts lines 598-624,
src/unnamed/part_000 lines 710-736): same session shape for the dataset file
path obtained with the requested access level. -/
def jobGetDataset (accessLevel : AccessLevel) (content : String) :
    ContentSession :=
  { level := accessLevel, original := content, current := content }

/-- The script (or anything else) rewriting the file on disk between the get
call and the routing stage. -/
def modifyOnDisk (s : ContentSession) (newContent : String) : ContentSession :=
  { s with current := newContent }

/-- The error the host raises at the routing stage when content modification
is detected for a path obtained with `AccessLevel.ReadOnly`. -/
def modifiedReadOnlyError : String :=
  "content modification detected with readOnly access"

/-- Modelled from the routing-stage notes of `Job.get` and `Job.getDataset`
(src/index.d.ts lines 498-502 and 603-607, src/unnamed/part_000 lines 611-615
and 715-719): at the routing stage any modification is detected; with
`AccessLevel.ReadOnly` an error is thrown, with `AccessLevel.ReadWrite` the
content is updated with the modified content, and without modification the
existing content stands. -/
def uploadAtRouting (s : ContentSession) (existing : String) :
    Except String String :=
  if s.current = s.original then .ok existing
  else
    match s.level with
    | .ReadOnly => .error modifiedReadOnlyError
    | .ReadWrite => .ok s.current

/-- The four routing methods to which the documented upload rule applies
(src/index.d.ts line 502, src/unnamed/part_000 line 615): `Job.sendToSingle`,
`Job.sendTo`, `Job.sendToLog` and `Job.sendToData`. -/
inductive SendMethod
  | sendToSingle
  | sendTo
  | sendToLog
  | sendToData
deriving DecidableEq, Repr, Fintype

/-- The job-content upload stage of each of the four routing methods: the
documented rule is the same for all of them. -/
def routeJobContent (_ : SendMethod) (s : ContentSession) (existing : String) :
    Except String String :=
  uploadAtRouting s existing

/-- The dataset upload stage of each of the four routing methods: the same
read-only versus read-write rule applies to datasets obtained via
`Job.getDataset`. -/
def routeDatasetContent (_ : SendMethod) (s : ContentSession)
    (existing : String) : Except String String :=
  uploadAtRouting s existing

end Host

/-- C3: at the routing stage of any of the four send methods, detected
content modification of a path obtained via `Job.get` with ReadOnly access
raises an error while with ReadWrite access the job content is updated with
the modified content; the same rule applies to datasets obtained via
`Job.getDataset`, and an unmodified path leaves the content unchanged. -/
theorem C3_access_level_routing :
    (∀ (m : Host.SendMethod) (orig newC existing : String),
        newC ≠ orig →
        Host.routeJobContent m
            (Host.modifyOnDisk (Host.jobGet .ReadOnly orig) newC) existing =
          .error Host.modifiedReadOnlyError ∧
        Host.routeDatasetContent m
            (Host.modifyOnDisk (Host.jobGetDataset .ReadOnly orig) newC)
            existing =
          .error Host.modifiedReadOnlyError) ∧
    (∀ (m : Host.SendMethod) (orig newC existing : String),
        newC ≠ orig →
        Host.routeJobContent m
            (Host.modifyOnDisk (Host.jobGet .ReadWrite orig) newC) existing =
          .ok newC ∧
        Host.routeDatasetContent m
            (Host.modifyOnDisk (Host.jobGetDataset .ReadWrite orig) newC)
            existing =
          .ok newC) ∧
    (∀ (m : Host.SendMethod) (level : Host.AccessLevel) (orig existing : String),
        Host.routeJobContent m (Host.jobGet level orig) existing =
          .ok existing) := by
  refine ⟨?_, ?_, ?_⟩
  · intro m orig newC existing h
    constructor <;>
      simp [Host.routeJobContent, Host.routeDatasetContent,
        Host.uploadAtRouting, Host.modifyOnDisk, Host.jobGet,
        Host.jobGetDataset, h]
  · intro m orig newC existing h
    constructor <;>
      simp [Host.routeJobContent, Host.routeDatasetContent,
        Host.uploadAtRouting, Host.modifyOnDisk, Host.jobGet,
        Host.jobGetDataset, h]
  · intro m level orig existing
    simp [Host.routeJobContent, Host.uploadAtRouting, Host.jobGet]

/-- C3 witness: a job fetched read-only whose content changed from a to b
makes `sendToSingle` error at the routing stage. -/
theorem C3_witness :
    Host.routeJobContent .sendToSingle
        (Host.modifyOnDisk (Host.jobGet .ReadOnly "a") "b") "a" =
      .error Host.modifiedReadOnlyError ∧
    ("b" : String) ≠ "a" :=
  ⟨(C3_access_level_routing.1 .sendToSingle "a" "b" "a" (by decide)).1,
   by decide⟩

namespace Host

/-- The `declare enum Scope` members of src/unnamed/part_000 (lines 43-49),
as an inductive type for the behavioural model of the global data store;
src/index.d.ts declares the subset Element, FlowElement and Global. -/
inductive Scope
  | Element
  | Flow
  | FlowElement
  | FlowElements
  | Global
deriving DecidableEq, Repr

/-- A global data variable is addressed by its scope and tag
(src/index.d.ts lines 632-644, src/unnamed/part_000 lines 743-754). -/
abbrev GlobalKey := Scope × String

/-- Modelled from the `Switch` class global-data documentation
(src/index.d.ts lines 631-688, src/unnamed/part_000 lines 742-802): the
host-managed key-value store together with the set of keys the running script
holds a lock on. -/
structure GlobalDataStore where
  entries : List (GlobalKey × String)
  locks : List GlobalKey
deriving DecidableEq, Repr

/-- The value of the global data variable with the given key, or the empty
string if no variable with that scope and tag was set. -/
def lookupGlobalData (st : GlobalDataStore) (k : GlobalKey) : String :=
  match st.entries.find? (fun e => decide (e.1 = k)) with
  | some e => e.2
  | none => ""

/-- Modelled from `Switch.getGlobalData` (src/index.d.ts lines 632-644,
src/unnamed/part_000 lines 743-754): returns the stored value or the empty
string, and when the lock parameter is true additionally sets a lock on the
global data for this script. -/
def getGlobalData (st : GlobalDataStore) (scope : Scope) (tag : String)
    (lock : Bool) : GlobalDataStore × String :=
  ({ st with
      locks := if lock then (scope, tag) :: st.locks else st.locks },
   lookupGlobalData st (scope, tag))

/-- Modelled from `Switch.setGlobalData` (src/index.d.ts lines 659-665,
src/unnamed/part_000 lines 772-778) together with the lock documentation of
`getGlobalData`: replaces the stored value for the key and releases the lock
the script holds on that data. -/
def setGlobalData (st : GlobalDataStore) (scope : Scope) (tag : String)
    (value : String) : GlobalDataStore :=
  { entries :=
      ((scope, tag), value) ::
        st.entries.filter (fun e => decide (e.1 ≠ (scope, tag))),
    locks := st.locks.filter (fun l => decide (l ≠ (scope, tag))) }

/-- Modelled from `Switch.removeGlobalData` (src/index.d.ts lines 674-680,
src/unnamed/part_000 lines 789-795): removes the stored data for the key; the
documentation names no effect on locks, and the lock documentation says a lock
is released only by `setGlobalData` or the end of the script. -/
def removeGlobalData (st : GlobalDataStore) (scope : Scope) (tag : String) :
    GlobalDataStore :=
  { entries := st.entries.filter (fun e => decide (e.1 ≠ (scope, tag))),
    locks := st.locks }

/-- The global-data operations a script can perform during its run. -/
inductive GlobalDataOp
  | get (scope : Scope) (tag : String) (lock : Bool)
  | set (scope : Scope) (tag : String) (value : String)
  | remove (scope : Scope) (tag : String)
deriving DecidableEq, Repr

/-- One global-data operation applied to the store. -/
def applyGlobalDataOp (st : GlobalDataStore) : GlobalDataOp → GlobalDataStore
  | .get scope tag lock => (getGlobalData st scope tag lock).1
  | .set scope tag value => setGlobalData st scope tag value
  | .remove scope tag => removeGlobalData st scope tag

/-- The rest of the script: a sequence of global-data operations. -/
def runGlobalDataOps (st : GlobalDataStore) (ops : List GlobalDataOp) :
    GlobalDataStore :=
  ops.foldl applyGlobalDataOp st

/-- A held lock survives any single operation that is not a `setGlobalData`
call for the locked data. -/
theorem lock_survives_op (st : GlobalDataStore) (scope : Scope) (tag : String)
    (op : GlobalDataOp) (hmem : (scope, tag) ∈ st.locks)
    (hop : ∀ v, op ≠ .set scope tag v) :
    (scope, tag) ∈ (applyGlobalDataOp st op).locks := by
  cases op with
  | get s t l =>
      cases l <;> simp [applyGlobalDataOp, getGlobalData, hmem]
  | set s t v =>
      have hne : ((scope, tag) : GlobalKey) ≠ (s, t) := by
        intro h
        have h1 : scope = s := congrArg Prod.fst h
        have h2 : tag = t := congrArg Prod.snd h
        exact hop v (by rw [h1, h2])
      simp [applyGlobalDataOp, setGlobalData, List.mem_filter, hmem, hne]
  | remove s t =>
      simpa [applyGlobalDataOp, removeGlobalData] using hmem

end Host

/-- C7: a lock acquired by `getGlobalData` with the lock flag persists through
every subsequent sequence of global-data operations that contains no
`setGlobalData` call for that data, and a `setGlobalData` call for the data
releases it; no other operation releases the lock. -/
theorem C7_global_data_lock :
    (∀ (st : Host.GlobalDataStore) (scope : Host.Scope) (tag : String),
        (scope, tag) ∈
          (Host.applyGlobalDataOp st (.get scope tag true)).locks) ∧
    (∀ (st : Host.GlobalDataStore) (scope : Host.Scope) (tag : String)
        (ops : List Host.GlobalDataOp),
        (scope, tag) ∈ st.locks →
        (∀ op ∈ ops, ∀ v, op ≠ .set scope tag v) →
        (scope, tag) ∈ (Host.runGlobalDataOps st ops).locks) ∧
    (∀ (st : Host.GlobalDataStore) (scope : Host.Scope) (tag v : String),
        (scope, tag) ∉
          (Host.applyGlobalDataOp st (.set scope tag v)).locks) := by
  refine ⟨?_, ?_, ?_⟩
  · intro st scope tag
    simp [Host.applyGlobalDataOp, Host.getGlobalData]
  · intro st scope tag ops
    induction ops generalizing st with
    | nil => intro hmem _; simpa [Host.runGlobalDataOps] using hmem
    | cons op rest ih =>
        intro hmem hops
        have hstep := Host.lock_survives_op st scope tag op hmem
          (hops op (List.mem_cons_self op rest))
        have hrest : ∀ o ∈ rest, ∀ v, o ≠ Host.GlobalDataOp.set scope tag v :=
          fun o ho => hops o (List.mem_cons_of_mem op ho)
        simpa [Host.runGlobalDataOps] using
          ih (Host.applyGlobalDataOp st op) hstep hrest
  · intro st scope tag v
    simp [Host.applyGlobalDataOp, Host.setGlobalData, List.mem_filter]

/-- C7 witness: a lock taken on the flow scope tag k survives an unrelated
remove operation and a differently-tagged set, and is gone after a set for
the same data. -/
theorem C7_witness :
    (Host.Scope.Flow, "k") ∈
      (Host.applyGlobalDataOp ⟨[], []⟩ (.get .Flow "k" true)).locks ∧
    (Host.Scope.Flow, "k") ∈
      (Host.runGlobalDataOps ⟨[], [(Host.Scope.Flow, "k")]⟩
        [.remove .Flow "k", .set .Global "k" "v"]).locks ∧
    (Host.Scope.Flow, "k") ∉
      (Host.applyGlobalDataOp ⟨[], [(Host.Scope.Flow, "k")]⟩
        (.set .Flow "k" "v")).locks :=
  ⟨C7_global_data_lock.1 ⟨[], []⟩ .Flow "k",
   C7_global_data_lock.2.1 ⟨[], [(Host.Scope.Flow, "k")]⟩ .Flow "k"
     [.remove .Flow "k", .set .Global "k" "v"] (by decide)
     (by intro op hop v; fin_cases hop <;> simp),
   C7_global_data_lock.2.2 ⟨[], [(Host.Scope.Flow, "k")]⟩ .Flow "k" "v"⟩

namespace Host

namespace Connection

/-- The `enum Level` block inside `declare namespace Connection`, identical in
both files (src/index.d.ts lines 108-112, src/unnamed/part_000 lines 126-130),
as an inductive type for the behavioural model. -/
inductive Level
  | Success
  | Warning
  | Error
deriving DecidableEq, Repr

end Connection

/-- The `declare enum DatasetModel` members of src/unnamed/part_000
(lines 23-29), as an inductive type for the behavioural model; src/index.d.ts
declares the first four members only. -/
inductive DatasetModel
  | Opaque
  | XML
  | XMP
  | JDF
  | JSON
deriving DecidableEq, Repr

/-- The two kinds of traffic-light connection targeted by the routing methods
(src/index.d.ts lines 315-356, src/unnamed/part_000 lines 411-451): data
connections, targeted by `sendToData`, and log connections, targeted by
`sendToLog`. -/
inductive TrafficConnectionKind
  | data
  | log
deriving DecidableEq, Repr

/-- An outgoing traffic-light connection with the set of connection levels
its level property has enabled. -/
structure TrafficConnection where
  kind : TrafficConnectionKind
  levels : List Connection.Level
deriving DecidableEq, Repr

/-- The traffic-light configuration of the flow element: whether the script is
configured to use traffic light connections at all, and its outgoing
traffic-light connections. -/
structure TrafficLightConfig where
  useTrafficLights : Bool
  connections : List TrafficConnection
deriving DecidableEq, Repr

/-- The externally visible result of a traffic-light routing call: the job is
sent to the matching connections, the job is failed with an error message, the
job is discarded, or an error is logged and nothing is done. -/
inductive RouteOutcome
  | sentTo (targets : List TrafficConnection)
  | jobFailed (message : String)
  | jobDiscarded
  | errorLoggedNothingDone
deriving DecidableEq, Repr

/-- The outgoing data traffic-light connections that have the specified
connection level property enabled. -/
def dataConnectionsOfLevel (cfg : TrafficLightConfig)
    (level : Connection.Level) : List TrafficConnection :=
  cfg.connections.filter
    (fun c => decide (c.kind = .data) && decide (level ∈ c.levels))

/-- The outgoing log traffic-light connections that have the specified
connection level property enabled. -/
def logConnectionsOfLevel (cfg : TrafficLightConfig)
    (level : Connection.Level) : List TrafficConnection :=
  cfg.connections.filter
    (fun c => decide (c.kind = .log) && decide (level ∈ c.levels))

/-- The error message with which `sendToData` fails the job when the flow
element has no outgoing data connections of the specified level. -/
def noConnectionsOfLevelError : String :=
  "there are no outgoing data connections of the specified level"

/-- Modelled from `Job.sendToData` (src/index.d.ts lines 315-327,
src/unnamed/part_000 lines 411-423): if the script is not configured to use
traffic light connections, the function logs an error and does nothing; if the
flow element has no outgoing connections of the specified level, the job is
failed with an appropriate error message; otherwise the job is sent to the
matching data connections. -/
def sendToData (cfg : TrafficLightConfig) (level : Connection.Level) :
    RouteOutcome :=
  if cfg.useTrafficLights then
    let targets := dataConnectionsOfLevel cfg level
    if targets = [] then .jobFailed noConnectionsOfLevelError
    else .sentTo targets
  else .errorLoggedNothingDone

/-- Modelled from `Job.sendToLog` (src/index.d.ts lines 329-356,
src/unnamed/part_000 lines 424-451): if the script is not configured to use
traffic light connections, the function logs an error and does nothing; if the
flow element has no outgoing connections of the specified level, the job is
discarded; otherwise the job is sent to the matching log connections.  The
dataset model argument selects the metadata dataset model and does not change
the routing outcome. -/
def sendToLog (cfg : TrafficLightConfig) (level : Connection.Level)
    (_ : DatasetModel) : RouteOutcome :=
  if cfg.useTrafficLights then
    let targets := logConnectionsOfLevel cfg level
    if targets = [] then .jobDiscarded
    else .sentTo targets
  else .errorLoggedNothingDone

end Host

/-- C9: with traffic lights configured but no outgoing connection of the
specified level, `sendToData` fails the job with an error message while
`sendToLog` discards the job without failing it; with the script not
configured for traffic light connections, both log an error and do nothing;
and `sendToLog` never fails the job while `sendToData` never discards it. -/
theorem C9_traffic_light_routing :
    ∀ (cfg : Host.TrafficLightConfig) (level : Host.Connection.Level)
      (model : Host.DatasetModel),
      (cfg.useTrafficLights = false →
        Host.sendToData cfg level = .errorLoggedNothingDone ∧
        Host.sendToLog cfg level model = .errorLoggedNothingDone) ∧
      (cfg.useTrafficLights = true →
        Host.dataConnectionsOfLevel cfg level = [] →
        Host.sendToData cfg level = .jobFailed Host.noConnectionsOfLevelError) ∧
      (cfg.useTrafficLights = true →
        Host.logConnectionsOfLevel cfg level = [] →
        Host.sendToLog cfg level model = .jobDiscarded) ∧
      (∀ msg, Host.sendToLog cfg level model ≠ .jobFailed msg) ∧
      Host.sendToData cfg level ≠ .jobDiscarded := by
  intro cfg level model
  refine ⟨?_, ?_, ?_, ?_, ?_⟩
  · intro h
    constructor <;> simp [Host.sendToData, Host.sendToLog, h]
  · intro h he
    simp [Host.sendToData, h, he]
  · intro h he
    simp [Host.sendToLog, h, he]
  · intro msg
    by_cases h : cfg.useTrafficLights <;>
      by_cases he : Host.logConnectionsOfLevel cfg level = [] <;>
      simp [Host.sendToLog, h, he]
  · by_cases h : cfg.useTrafficLights <;>
      by_cases he : Host.dataConnectionsOfLevel cfg level = [] <;>
      simp [Host.sendToData, h, he]

/-- C9 witness: with traffic lights in use and a single warning-level log
connection, an error-level `sendToData` fails the job and an error-level
`sendToLog` discards it. -/
theorem C9_witness :
    Host.sendToData ⟨true, [⟨.log, [.Warning]⟩]⟩ .Error =
      .jobFailed Host.noConnectionsOfLevelError ∧
    Host.sendToLog ⟨true, [⟨.log, [.Warning]⟩]⟩ .Error .XML = .jobDiscarded :=
  ⟨(C9_traffic_light_routing ⟨true, [⟨.log, [.Warning]⟩]⟩ .Error .XML).2.1
     (by decide) (by decide),
   (C9_traffic_light_routing ⟨true, [⟨.log, [.Warning]⟩]⟩ .Error .XML).2.2.1
     (by decide) (by decide)⟩

namespace Host

/-- Modelled from the private data documentation of the `Job` class
(src/index.d.ts lines 395-491, src/unnamed/part_000 lines 499-605): the
private data attached to a job as tag-value pairs. -/
def lookupPrivateData (pd : List (String × String)) (tag : String) :
    Option String :=
  (pd.find? (fun e => e.1 == tag)).map Prod.snd

/-- Modelled from the single-tag form of `Job.getPrivateData`
(src/index.d.ts lines 395-400, src/unnamed/part_000 lines 499-504): resolves
with the value of the private data with the specified tag, or with the empty
string if no private data with that tag was set for the job. -/
def getPrivateData (pd : List (String × String)) (tag : String) :
    Except String String :=
  .ok ((lookupPrivateData pd tag).getD "")

/-- Modelled from the list form of `Job.getPrivateData`
(src/index.d.ts lines 401-410, src/unnamed/part_000 lines 505-517): resolves
with the tag-value pairs for the provided tags, omitting the entries for
non-existing tags. -/
def getPrivateDataList (pd : List (String × String)) (tags : List String) :
    Except String (List (String × String)) :=
  .ok (tags.filterMap (fun t => (lookupPrivateData pd t).map (fun v => (t, v))))

end Host

/-- C10: for a tag with no private data set, the single-tag getter resolves
with the empty string rather than rejecting; the list form resolves with a
list that contains no entry for any tag with no private data set; and both
getters always resolve, never erroring on absence. -/
theorem C10_private_data_getters :
    ∀ (pd : List (String × String)) (tag : String) (tags : List String),
      (Host.lookupPrivateData pd tag = none →
        Host.getPrivateData pd tag = .ok "") ∧
      (∃ v, Host.getPrivateData pd tag = .ok v) ∧
      (∃ l, Host.getPrivateDataList pd tags = .ok l ∧
        ∀ t, Host.lookupPrivateData pd t = none → ∀ p ∈ l, p.1 ≠ t) := by
  intro pd tag tags
  refine ⟨?_, ⟨_, rfl⟩, ⟨_, rfl, ?_⟩⟩
  · intro h
    simp [Host.getPrivateData, h]
  · intro t ht p hp
    rcases List.mem_filterMap.mp hp with ⟨u, hu, hmap⟩
    rcases Option.map_eq_some'.mp hmap with ⟨v, hv, hpv⟩
    intro hpt
    rw [← hpv] at hpt
    simp only at hpt
    rw [hpt] at hv
    rw [ht] at hv
    cases hv

/-- C10 witness: on a job with private data only at tag a, the getter at tag b
resolves with the empty string, and the list form for tags a and b contains no
entry for b. -/
theorem C10_witness :
    Host.getPrivateData [("a", "x")] "b" = .ok "" ∧
    Host.getPrivateDataList [("a", "x")] ["a", "b"] = .ok [("a", "x")] :=
  ⟨(C10_private_data_getters [("a", "x")] "b" ["a", "b"]).1 (by decide), rfl⟩

end SwitchScripting
